import Mathlib

/-
Verification of the drag-model core of the go_ballisticcalc library
(file Drag.go): reference drag tables, the piecewise-quadratic curve
fitter `calculateCurve`, the binary-search evaluator `calculateByCurve`,
and the `BallisticCoefficient` constructor and `Drag` method.

Embedding conventions:
- Go `float64` arithmetic is modelled by exact rational arithmetic (ℚ).
  All identities proved here hold exactly in that model; the tolerances
  quoted by the specification (1e-9, "floating-point tolerance") are
  slack for rounding in the float model, and discrepancies exhibited
  below (2e-4 and similar) dwarf any double-precision rounding error.
- Go slices become `List`s; the Go indexing `xs[i]` (which is always in
  bounds in the executions the claims quantify over, as proved below)
  becomes total indexing `dp` / `cp` with a default element.
- The Go `for (mhi - mlo) > 1` loop of `calculateByCurve` becomes the
  structurally recursive `bsearchAux` driven by the fuel `mhi - mlo`,
  which strictly bounds the number of iterations of the Go loop, since
  the gap `mhi - mlo` strictly decreases at every iteration; hence the
  fuel never runs out (`bsearchAux_fuel_irrel` below makes this exact).
- `dragFunctionFactory` returns `Option`: `none` models the Go `panic`
  in its `default` branch.  `CreateBallisticCoefficient` returns
  `CreateResult`: `ok`/`err` model the Go `(value, error)` results and
  `crash` models a panic escaping the constructor.
-/

namespace Ballistics

/-- Go struct `DataPoint`: one sample of a drag table, `A` the Mach
number and `B` the drag coefficient. -/
structure DataPoint where
  A : ℚ
  B : ℚ

/-- Go struct `CurvePoint`: one fitted segment `A*x^2 + B*x + C`. -/
structure CurvePoint where
  A : ℚ
  B : ℚ
  C : ℚ

/-- Slice access `dataPoints[i]` (total, with junk default; every use
proved in range where a claim depends on it). -/
def dp (l : List DataPoint) (i : Nat) : DataPoint := l.getD i ⟨0, 0⟩

/-- Slice access `curve[i]` (total, with junk default). -/
def cp (l : List CurvePoint) (i : Nat) : CurvePoint := l.getD i ⟨0, 0, 0⟩

@[simp] theorem dp_A_mk (a b : ℚ) : (DataPoint.mk a b).A = a := rfl

@[simp] theorem dp_B_mk (a b : ℚ) : (DataPoint.mk a b).B = b := rfl

/-- Go constant `DragTableG1`. -/
def DragTableG1 : Nat := 1

/-- Go constant `DragTableG2`. -/
def DragTableG2 : Nat := 2

/-- Go constant `DragTableG5`. -/
def DragTableG5 : Nat := 3

/-- Go constant `DragTableG6`. -/
def DragTableG6 : Nat := 4

/-- Go constant `DragTableG7`. -/
def DragTableG7 : Nat := 5

/-- Go constant `DragTableG8`. -/
def DragTableG8 : Nat := 6

/-- Go constant `DragTableGS`. -/
def DragTableGS : Nat := 7

/-- Go constant `DragTableGI`. -/
def DragTableGI : Nat := 8

/-- Reference drag table `g1Table` from the source (Mach, drag coefficient). -/
def g1Table : List DataPoint := [
  DataPoint.mk 0.00 0.2629,
  DataPoint.mk 0.05 0.2558,
  DataPoint.mk 0.10 0.2487,
  DataPoint.mk 0.15 0.2413,
  DataPoint.mk 0.20 0.2344,
  DataPoint.mk 0.25 0.2278,
  DataPoint.mk 0.30 0.2214,
  DataPoint.mk 0.35 0.2155,
  DataPoint.mk 0.40 0.2104,
  DataPoint.mk 0.45 0.2061,
  DataPoint.mk 0.50 0.2032,
  DataPoint.mk 0.55 0.2020,
  DataPoint.mk 0.60 0.2034,
  DataPoint.mk 0.70 0.2165,
  DataPoint.mk 0.725 0.2230,
  DataPoint.mk 0.75 0.2313,
  DataPoint.mk 0.775 0.2417,
  DataPoint.mk 0.80 0.2546,
  DataPoint.mk 0.825 0.2706,
  DataPoint.mk 0.85 0.2901,
  DataPoint.mk 0.875 0.3136,
  DataPoint.mk 0.90 0.3415,
  DataPoint.mk 0.925 0.3734,
  DataPoint.mk 0.95 0.4084,
  DataPoint.mk 0.975 0.4448,
  DataPoint.mk 1.0 0.4805,
  DataPoint.mk 1.025 0.5136,
  DataPoint.mk 1.05 0.5427,
  DataPoint.mk 1.075 0.5677,
  DataPoint.mk 1.10 0.5883,
  DataPoint.mk 1.125 0.6053,
  DataPoint.mk 1.15 0.6191,
  DataPoint.mk 1.20 0.6393,
  DataPoint.mk 1.25 0.6518,
  DataPoint.mk 1.30 0.6589,
  DataPoint.mk 1.35 0.6621,
  DataPoint.mk 1.40 0.6625,
  DataPoint.mk 1.45 0.6607,
  DataPoint.mk 1.50 0.6573,
  DataPoint.mk 1.55 0.6528,
  DataPoint.mk 1.60 0.6474,
  DataPoint.mk 1.65 0.6413,
  DataPoint.mk 1.70 0.6347,
  DataPoint.mk 1.75 0.6280,
  DataPoint.mk 1.80 0.6210,
  DataPoint.mk 1.85 0.6141,
  DataPoint.mk 1.90 0.6072,
  DataPoint.mk 1.95 0.6003,
  DataPoint.mk 2.00 0.5934,
  DataPoint.mk 2.05 0.5867,
  DataPoint.mk 2.10 0.5804,
  DataPoint.mk 2.15 0.5743,
  DataPoint.mk 2.20 0.5685,
  DataPoint.mk 2.25 0.5630,
  DataPoint.mk 2.30 0.5577,
  DataPoint.mk 2.35 0.5527,
  DataPoint.mk 2.40 0.5481,
  DataPoint.mk 2.45 0.5438,
  DataPoint.mk 2.50 0.5397,
  DataPoint.mk 2.60 0.5325,
  DataPoint.mk 2.70 0.5264,
  DataPoint.mk 2.80 0.5211,
  DataPoint.mk 2.90 0.5168,
  DataPoint.mk 3.00 0.5133,
  DataPoint.mk 3.10 0.5105,
  DataPoint.mk 3.20 0.5084,
  DataPoint.mk 3.30 0.5067,
  DataPoint.mk 3.40 0.5054,
  DataPoint.mk 3.50 0.5040,
  DataPoint.mk 3.60 0.5030,
  DataPoint.mk 3.70 0.5022,
  DataPoint.mk 3.80 0.5016,
  DataPoint.mk 3.90 0.5010,
  DataPoint.mk 4.00 0.5006,
  DataPoint.mk 4.20 0.4998,
  DataPoint.mk 4.40 0.4995,
  DataPoint.mk 4.60 0.4992,
  DataPoint.mk 4.80 0.4990,
  DataPoint.mk 5.00 0.4988]



/-- Reference drag table `g7Table` from the source (Mach, drag coefficient). -/
def g7Table : List DataPoint := [
  DataPoint.mk 0.00 0.1198,
  DataPoint.mk 0.05 0.1197,
  DataPoint.mk 0.10 0.1196,
  DataPoint.mk 0.15 0.1194,
  DataPoint.mk 0.20 0.1193,
  DataPoint.mk 0.25 0.1194,
  DataPoint.mk 0.30 0.1194,
  DataPoint.mk 0.35 0.1194,
  DataPoint.mk 0.40 0.1193,
  DataPoint.mk 0.45 0.1193,
  DataPoint.mk 0.50 0.1194,
  DataPoint.mk 0.55 0.1193,
  DataPoint.mk 0.60 0.1194,
  DataPoint.mk 0.65 0.1197,
  DataPoint.mk 0.70 0.1202,
  DataPoint.mk 0.725 0.1207,
  DataPoint.mk 0.75 0.1215,
  DataPoint.mk 0.775 0.1226,
  DataPoint.mk 0.80 0.1242,
  DataPoint.mk 0.825 0.1266,
  DataPoint.mk 0.85 0.1306,
  DataPoint.mk 0.875 0.1368,
  DataPoint.mk 0.90 0.1464,
  DataPoint.mk 0.925 0.1660,
  DataPoint.mk 0.95 0.2054,
  DataPoint.mk 0.975 0.2993,
  DataPoint.mk 1.0 0.3803,
  DataPoint.mk 1.025 0.4015,
  DataPoint.mk 1.05 0.4043,
  DataPoint.mk 1.075 0.4034,
  DataPoint.mk 1.10 0.4014,
  DataPoint.mk 1.125 0.3987,
  DataPoint.mk 1.15 0.3955,
  DataPoint.mk 1.20 0.3884,
  DataPoint.mk 1.25 0.3810,
  DataPoint.mk 1.30 0.3732,
  DataPoint.mk 1.35 0.3657,
  DataPoint.mk 1.40 0.3580,
  DataPoint.mk 1.50 0.3440,
  DataPoint.mk 1.55 0.3376,
  DataPoint.mk 1.60 0.3315,
  DataPoint.mk 1.65 0.3260,
  DataPoint.mk 1.70 0.3209,
  DataPoint.mk 1.75 0.3160,
  DataPoint.mk 1.80 0.3117,
  DataPoint.mk 1.85 0.3078,
  DataPoint.mk 1.90 0.3042,
  DataPoint.mk 1.95 0.3010,
  DataPoint.mk 2.00 0.2980,
  DataPoint.mk 2.05 0.2951,
  DataPoint.mk 2.10 0.2922,
  DataPoint.mk 2.15 0.2892,
  DataPoint.mk 2.20 0.2864,
  DataPoint.mk 2.25 0.2835,
  DataPoint.mk 2.30 0.2807,
  DataPoint.mk 2.35 0.2779,
  DataPoint.mk 2.40 0.2752,
  DataPoint.mk 2.45 0.2725,
  DataPoint.mk 2.50 0.2697,
  DataPoint.mk 2.55 0.2670,
  DataPoint.mk 2.60 0.2643,
  DataPoint.mk 2.65 0.2615,
  DataPoint.mk 2.70 0.2588,
  DataPoint.mk 2.75 0.2561,
  DataPoint.mk 2.80 0.2533,
  DataPoint.mk 2.85 0.2506,
  DataPoint.mk 2.90 0.2479,
  DataPoint.mk 2.95 0.2451,
  DataPoint.mk 3.00 0.2424,
  DataPoint.mk 3.10 0.2368,
  DataPoint.mk 3.20 0.2313,
  DataPoint.mk 3.30 0.2258,
  DataPoint.mk 3.40 0.2205,
  DataPoint.mk 3.50 0.2154,
  DataPoint.mk 3.60 0.2106,
  DataPoint.mk 3.70 0.2060,
  DataPoint.mk 3.80 0.2017,
  DataPoint.mk 3.90 0.1975,
  DataPoint.mk 4.00 0.1935,
  DataPoint.mk 4.20 0.1861,
  DataPoint.mk 4.40 0.1793,
  DataPoint.mk 4.60 0.1730,
  DataPoint.mk 4.80 0.1672,
  DataPoint.mk 5.00 0.1618]



/-- Reference drag table `g2Table` from the source (Mach, drag coefficient). -/
def g2Table : List DataPoint := [
  DataPoint.mk 0.00 0.2303,
  DataPoint.mk 0.05 0.2298,
  DataPoint.mk 0.10 0.2287,
  DataPoint.mk 0.15 0.2271,
  DataPoint.mk 0.20 0.2251,
  DataPoint.mk 0.25 0.2227,
  DataPoint.mk 0.30 0.2196,
  DataPoint.mk 0.35 0.2156,
  DataPoint.mk 0.40 0.2107,
  DataPoint.mk 0.45 0.2048,
  DataPoint.mk 0.50 0.1980,
  DataPoint.mk 0.55 0.1905,
  DataPoint.mk 0.60 0.1828,
  DataPoint.mk 0.65 0.1758,
  DataPoint.mk 0.70 0.1702,
  DataPoint.mk 0.75 0.1669,
  DataPoint.mk 0.775 0.1664,
  DataPoint.mk 0.80 0.1667,
  DataPoint.mk 0.825 0.1682,
  DataPoint.mk 0.85 0.1711,
  DataPoint.mk 0.875 0.1761,
  DataPoint.mk 0.90 0.1831,
  DataPoint.mk 0.925 0.2004,
  DataPoint.mk 0.95 0.2589,
  DataPoint.mk 0.975 0.3492,
  DataPoint.mk 1.0 0.3983,
  DataPoint.mk 1.025 0.4075,
  DataPoint.mk 1.05 0.4103,
  DataPoint.mk 1.075 0.4114,
  DataPoint.mk 1.10 0.4106,
  DataPoint.mk 1.125 0.4089,
  DataPoint.mk 1.15 0.4068,
  DataPoint.mk 1.175 0.4046,
  DataPoint.mk 1.20 0.4021,
  DataPoint.mk 1.25 0.3966,
  DataPoint.mk 1.30 0.3904,
  DataPoint.mk 1.35 0.3835,
  DataPoint.mk 1.40 0.3759,
  DataPoint.mk 1.45 0.3678,
  DataPoint.mk 1.50 0.3594,
  DataPoint.mk 1.55 0.3512,
  DataPoint.mk 1.60 0.3432,
  DataPoint.mk 1.65 0.3356,
  DataPoint.mk 1.70 0.3282,
  DataPoint.mk 1.75 0.3213,
  DataPoint.mk 1.80 0.3149,
  DataPoint.mk 1.85 0.3089,
  DataPoint.mk 1.90 0.3033,
  DataPoint.mk 1.95 0.2982,
  DataPoint.mk 2.00 0.2933,
  DataPoint.mk 2.05 0.2889,
  DataPoint.mk 2.10 0.2846,
  DataPoint.mk 2.15 0.2806,
  DataPoint.mk 2.20 0.2768,
  DataPoint.mk 2.25 0.2731,
  DataPoint.mk 2.30 0.2696,
  DataPoint.mk 2.35 0.2663,
  DataPoint.mk 2.40 0.2632,
  DataPoint.mk 2.45 0.2602,
  DataPoint.mk 2.50 0.2572,
  DataPoint.mk 2.55 0.2543,
  DataPoint.mk 2.60 0.2515,
  DataPoint.mk 2.65 0.2487,
  DataPoint.mk 2.70 0.2460,
  DataPoint.mk 2.75 0.2433,
  DataPoint.mk 2.80 0.2408,
  DataPoint.mk 2.85 0.2382,
  DataPoint.mk 2.90 0.2357,
  DataPoint.mk 2.95 0.2333,
  DataPoint.mk 3.00 0.2309,
  DataPoint.mk 3.10 0.2262,
  DataPoint.mk 3.20 0.2217,
  DataPoint.mk 3.30 0.2173,
  DataPoint.mk 3.40 0.2132,
  DataPoint.mk 3.50 0.2091,
  DataPoint.mk 3.60 0.2052,
  DataPoint.mk 3.70 0.2014,
  DataPoint.mk 3.80 0.1978,
  DataPoint.mk 3.90 0.1944,
  DataPoint.mk 4.00 0.1912,
  DataPoint.mk 4.20 0.1851,
  DataPoint.mk 4.40 0.1794,
  DataPoint.mk 4.60 0.1741,
  DataPoint.mk 4.80 0.1693,
  DataPoint.mk 5.00 0.1648]



/-- Reference drag table `g5Table` from the source (Mach, drag coefficient). -/
def g5Table : List DataPoint := [
  DataPoint.mk 0.00 0.1710,
  DataPoint.mk 0.05 0.1719,
  DataPoint.mk 0.10 0.1727,
  DataPoint.mk 0.15 0.1732,
  DataPoint.mk 0.20 0.1734,
  DataPoint.mk 0.25 0.1730,
  DataPoint.mk 0.30 0.1718,
  DataPoint.mk 0.35 0.1696,
  DataPoint.mk 0.40 0.1668,
  DataPoint.mk 0.45 0.1637,
  DataPoint.mk 0.50 0.1603,
  DataPoint.mk 0.55 0.1566,
  DataPoint.mk 0.60 0.1529,
  DataPoint.mk 0.65 0.1497,
  DataPoint.mk 0.70 0.1473,
  DataPoint.mk 0.75 0.1463,
  DataPoint.mk 0.80 0.1489,
  DataPoint.mk 0.85 0.1583,
  DataPoint.mk 0.875 0.1672,
  DataPoint.mk 0.90 0.1815,
  DataPoint.mk 0.925 0.2051,
  DataPoint.mk 0.95 0.2413,
  DataPoint.mk 0.975 0.2884,
  DataPoint.mk 1.0 0.3379,
  DataPoint.mk 1.025 0.3785,
  DataPoint.mk 1.05 0.4032,
  DataPoint.mk 1.075 0.4147,
  DataPoint.mk 1.10 0.4201,
  DataPoint.mk 1.15 0.4278,
  DataPoint.mk 1.20 0.4338,
  DataPoint.mk 1.25 0.4373,
  DataPoint.mk 1.30 0.4392,
  DataPoint.mk 1.35 0.4403,
  DataPoint.mk 1.40 0.4406,
  DataPoint.mk 1.45 0.4401,
  DataPoint.mk 1.50 0.4386,
  DataPoint.mk 1.55 0.4362,
  DataPoint.mk 1.60 0.4328,
  DataPoint.mk 1.65 0.4286,
  DataPoint.mk 1.70 0.4237,
  DataPoint.mk 1.75 0.4182,
  DataPoint.mk 1.80 0.4121,
  DataPoint.mk 1.85 0.4057,
  DataPoint.mk 1.90 0.3991,
  DataPoint.mk 1.95 0.3926,
  DataPoint.mk 2.00 0.3861,
  DataPoint.mk 2.05 0.3800,
  DataPoint.mk 2.10 0.3741,
  DataPoint.mk 2.15 0.3684,
  DataPoint.mk 2.20 0.3630,
  DataPoint.mk 2.25 0.3578,
  DataPoint.mk 2.30 0.3529,
  DataPoint.mk 2.35 0.3481,
  DataPoint.mk 2.40 0.3435,
  DataPoint.mk 2.45 0.3391,
  DataPoint.mk 2.50 0.3349,
  DataPoint.mk 2.60 0.3269,
  DataPoint.mk 2.70 0.3194,
  DataPoint.mk 2.80 0.3125,
  DataPoint.mk 2.90 0.3060,
  DataPoint.mk 3.00 0.2999,
  DataPoint.mk 3.10 0.2942,
  DataPoint.mk 3.20 0.2889,
  DataPoint.mk 3.30 0.2838,
  DataPoint.mk 3.40 0.2790,
  DataPoint.mk 3.50 0.2745,
  DataPoint.mk 3.60 0.2703,
  DataPoint.mk 3.70 0.2662,
  DataPoint.mk 3.80 0.2624,
  DataPoint.mk 3.90 0.2588,
  DataPoint.mk 4.00 0.2553,
  DataPoint.mk 4.20 0.2488,
  DataPoint.mk 4.40 0.2429,
  DataPoint.mk 4.60 0.2376,
  DataPoint.mk 4.80 0.2326,
  DataPoint.mk 5.00 0.2280]



/-- Reference drag table `g6Table` from the source (Mach, drag coefficient). -/
def g6Table : List DataPoint := [
  DataPoint.mk 0.00 0.2617,
  DataPoint.mk 0.05 0.2553,
  DataPoint.mk 0.10 0.2491,
  DataPoint.mk 0.15 0.2432,
  DataPoint.mk 0.20 0.2376,
  DataPoint.mk 0.25 0.2324,
  DataPoint.mk 0.30 0.2278,
  DataPoint.mk 0.35 0.2238,
  DataPoint.mk 0.40 0.2205,
  DataPoint.mk 0.45 0.2177,
  DataPoint.mk 0.50 0.2155,
  DataPoint.mk 0.55 0.2138,
  DataPoint.mk 0.60 0.2126,
  DataPoint.mk 0.65 0.2121,
  DataPoint.mk 0.70 0.2122,
  DataPoint.mk 0.75 0.2132,
  DataPoint.mk 0.80 0.2154,
  DataPoint.mk 0.85 0.2194,
  DataPoint.mk 0.875 0.2229,
  DataPoint.mk 0.90 0.2297,
  DataPoint.mk 0.925 0.2449,
  DataPoint.mk 0.95 0.2732,
  DataPoint.mk 0.975 0.3141,
  DataPoint.mk 1.0 0.3597,
  DataPoint.mk 1.025 0.3994,
  DataPoint.mk 1.05 0.4261,
  DataPoint.mk 1.075 0.4402,
  DataPoint.mk 1.10 0.4465,
  DataPoint.mk 1.125 0.4490,
  DataPoint.mk 1.15 0.4497,
  DataPoint.mk 1.175 0.4494,
  DataPoint.mk 1.20 0.4482,
  DataPoint.mk 1.225 0.4464,
  DataPoint.mk 1.25 0.4441,
  DataPoint.mk 1.30 0.4390,
  DataPoint.mk 1.35 0.4336,
  DataPoint.mk 1.40 0.4279,
  DataPoint.mk 1.45 0.4221,
  DataPoint.mk 1.50 0.4162,
  DataPoint.mk 1.55 0.4102,
  DataPoint.mk 1.60 0.4042,
  DataPoint.mk 1.65 0.3981,
  DataPoint.mk 1.70 0.3919,
  DataPoint.mk 1.75 0.3855,
  DataPoint.mk 1.80 0.3788,
  DataPoint.mk 1.85 0.3721,
  DataPoint.mk 1.90 0.3652,
  DataPoint.mk 1.95 0.3583,
  DataPoint.mk 2.00 0.3515,
  DataPoint.mk 2.05 0.3447,
  DataPoint.mk 2.10 0.3381,
  DataPoint.mk 2.15 0.3314,
  DataPoint.mk 2.20 0.3249,
  DataPoint.mk 2.25 0.3185,
  DataPoint.mk 2.30 0.3122,
  DataPoint.mk 2.35 0.3060,
  DataPoint.mk 2.40 0.3000,
  DataPoint.mk 2.45 0.2941,
  DataPoint.mk 2.50 0.2883,
  DataPoint.mk 2.60 0.2772,
  DataPoint.mk 2.70 0.2668,
  DataPoint.mk 2.80 0.2574,
  DataPoint.mk 2.90 0.2487,
  DataPoint.mk 3.00 0.2407,
  DataPoint.mk 3.10 0.2333,
  DataPoint.mk 3.20 0.2265,
  DataPoint.mk 3.30 0.2202,
  DataPoint.mk 3.40 0.2144,
  DataPoint.mk 3.50 0.2089,
  DataPoint.mk 3.60 0.2039,
  DataPoint.mk 3.70 0.1991,
  DataPoint.mk 3.80 0.1947,
  DataPoint.mk 3.90 0.1905,
  DataPoint.mk 4.00 0.1866,
  DataPoint.mk 4.20 0.1794,
  DataPoint.mk 4.40 0.1730,
  DataPoint.mk 4.60 0.1673,
  DataPoint.mk 4.80 0.1621,
  DataPoint.mk 5.00 0.1574]



/-- Reference drag table `g8Table` from the source (Mach, drag coefficient). -/
def g8Table : List DataPoint := [
  DataPoint.mk 0.00 0.2105,
  DataPoint.mk 0.05 0.2105,
  DataPoint.mk 0.10 0.2104,
  DataPoint.mk 0.15 0.2104,
  DataPoint.mk 0.20 0.2103,
  DataPoint.mk 0.25 0.2103,
  DataPoint.mk 0.30 0.2103,
  DataPoint.mk 0.35 0.2103,
  DataPoint.mk 0.40 0.2103,
  DataPoint.mk 0.45 0.2102,
  DataPoint.mk 0.50 0.2102,
  DataPoint.mk 0.55 0.2102,
  DataPoint.mk 0.60 0.2102,
  DataPoint.mk 0.65 0.2102,
  DataPoint.mk 0.70 0.2103,
  DataPoint.mk 0.75 0.2103,
  DataPoint.mk 0.80 0.2104,
  DataPoint.mk 0.825 0.2104,
  DataPoint.mk 0.85 0.2105,
  DataPoint.mk 0.875 0.2106,
  DataPoint.mk 0.90 0.2109,
  DataPoint.mk 0.925 0.2183,
  DataPoint.mk 0.95 0.2571,
  DataPoint.mk 0.975 0.3358,
  DataPoint.mk 1.0 0.4068,
  DataPoint.mk 1.025 0.4378,
  DataPoint.mk 1.05 0.4476,
  DataPoint.mk 1.075 0.4493,
  DataPoint.mk 1.10 0.4477,
  DataPoint.mk 1.125 0.4450,
  DataPoint.mk 1.15 0.4419,
  DataPoint.mk 1.20 0.4353,
  DataPoint.mk 1.25 0.4283,
  DataPoint.mk 1.30 0.4208,
  DataPoint.mk 1.35 0.4133,
  DataPoint.mk 1.40 0.4059,
  DataPoint.mk 1.45 0.3986,
  DataPoint.mk 1.50 0.3915,
  DataPoint.mk 1.55 0.3845,
  DataPoint.mk 1.60 0.3777,
  DataPoint.mk 1.65 0.3710,
  DataPoint.mk 1.70 0.3645,
  DataPoint.mk 1.75 0.3581,
  DataPoint.mk 1.80 0.3519,
  DataPoint.mk 1.85 0.3458,
  DataPoint.mk 1.90 0.3400,
  DataPoint.mk 1.95 0.3343,
  DataPoint.mk 2.00 0.3288,
  DataPoint.mk 2.05 0.3234,
  DataPoint.mk 2.10 0.3182,
  DataPoint.mk 2.15 0.3131,
  DataPoint.mk 2.20 0.3081,
  DataPoint.mk 2.25 0.3032,
  DataPoint.mk 2.30 0.2983,
  DataPoint.mk 2.35 0.2937,
  DataPoint.mk 2.40 0.2891,
  DataPoint.mk 2.45 0.2845,
  DataPoint.mk 2.50 0.2802,
  DataPoint.mk 2.60 0.2720,
  DataPoint.mk 2.70 0.2642,
  DataPoint.mk 2.80 0.2569,
  DataPoint.mk 2.90 0.2499,
  DataPoint.mk 3.00 0.2432,
  DataPoint.mk 3.10 0.2368,
  DataPoint.mk 3.20 0.2308,
  DataPoint.mk 3.30 0.2251,
  DataPoint.mk 3.40 0.2197,
  DataPoint.mk 3.50 0.2147,
  DataPoint.mk 3.60 0.2101,
  DataPoint.mk 3.70 0.2058,
  DataPoint.mk 3.80 0.2019,
  DataPoint.mk 3.90 0.1983,
  DataPoint.mk 4.00 0.1950,
  DataPoint.mk 4.20 0.1890,
  DataPoint.mk 4.40 0.1837,
  DataPoint.mk 4.60 0.1791,
  DataPoint.mk 4.80 0.1750,
  DataPoint.mk 5.00 0.1713]



/-- Reference drag table `gITable` from the source (Mach, drag coefficient). -/
def gITable : List DataPoint := [
  DataPoint.mk 0.00 0.2282,
  DataPoint.mk 0.05 0.2282,
  DataPoint.mk 0.10 0.2282,
  DataPoint.mk 0.15 0.2282,
  DataPoint.mk 0.20 0.2282,
  DataPoint.mk 0.25 0.2282,
  DataPoint.mk 0.30 0.2282,
  DataPoint.mk 0.35 0.2282,
  DataPoint.mk 0.40 0.2282,
  DataPoint.mk 0.45 0.2282,
  DataPoint.mk 0.50 0.2282,
  DataPoint.mk 0.55 0.2282,
  DataPoint.mk 0.60 0.2282,
  DataPoint.mk 0.65 0.2282,
  DataPoint.mk 0.70 0.2282,
  DataPoint.mk 0.725 0.2353,
  DataPoint.mk 0.75 0.2434,
  DataPoint.mk 0.775 0.2515,
  DataPoint.mk 0.80 0.2596,
  DataPoint.mk 0.825 0.2677,
  DataPoint.mk 0.85 0.2759,
  DataPoint.mk 0.875 0.2913,
  DataPoint.mk 0.90 0.3170,
  DataPoint.mk 0.925 0.3442,
  DataPoint.mk 0.95 0.3728,
  DataPoint.mk 1.0 0.4349,
  DataPoint.mk 1.05 0.5034,
  DataPoint.mk 1.075 0.5402,
  DataPoint.mk 1.10 0.5756,
  DataPoint.mk 1.125 0.5887,
  DataPoint.mk 1.15 0.6018,
  DataPoint.mk 1.175 0.6149,
  DataPoint.mk 1.20 0.6279,
  DataPoint.mk 1.225 0.6418,
  DataPoint.mk 1.25 0.6423,
  DataPoint.mk 1.30 0.6423,
  DataPoint.mk 1.35 0.6423,
  DataPoint.mk 1.40 0.6423,
  DataPoint.mk 1.45 0.6423,
  DataPoint.mk 1.50 0.6423,
  DataPoint.mk 1.55 0.6423,
  DataPoint.mk 1.60 0.6423,
  DataPoint.mk 1.625 0.6407,
  DataPoint.mk 1.65 0.6378,
  DataPoint.mk 1.70 0.6321,
  DataPoint.mk 1.75 0.6266,
  DataPoint.mk 1.80 0.6213,
  DataPoint.mk 1.85 0.6163,
  DataPoint.mk 1.90 0.6113,
  DataPoint.mk 1.95 0.6066,
  DataPoint.mk 2.00 0.6020,
  DataPoint.mk 2.05 0.5976,
  DataPoint.mk 2.10 0.5933,
  DataPoint.mk 2.15 0.5891,
  DataPoint.mk 2.20 0.5850,
  DataPoint.mk 2.25 0.5811,
  DataPoint.mk 2.30 0.5773,
  DataPoint.mk 2.35 0.5733,
  DataPoint.mk 2.40 0.5679,
  DataPoint.mk 2.45 0.5626,
  DataPoint.mk 2.50 0.5576,
  DataPoint.mk 2.60 0.5478,
  DataPoint.mk 2.70 0.5386,
  DataPoint.mk 2.80 0.5298,
  DataPoint.mk 2.90 0.5215,
  DataPoint.mk 3.00 0.5136,
  DataPoint.mk 3.10 0.5061,
  DataPoint.mk 3.20 0.4989,
  DataPoint.mk 3.30 0.4921,
  DataPoint.mk 3.40 0.4855,
  DataPoint.mk 3.50 0.4792,
  DataPoint.mk 3.60 0.4732,
  DataPoint.mk 3.70 0.4674,
  DataPoint.mk 3.80 0.4618,
  DataPoint.mk 3.90 0.4564,
  DataPoint.mk 4.00 0.4513,
  DataPoint.mk 4.20 0.4415,
  DataPoint.mk 4.40 0.4323,
  DataPoint.mk 4.60 0.4238,
  DataPoint.mk 4.80 0.4157,
  DataPoint.mk 5.00 0.4082]

/-- Go `var gSTable = gITable` (source comment: "tables are the same"). -/
def gSTable : List DataPoint := gITable

/-- One cell of the `curve` array built by Go `calculateCurve`:
index 0 is the secant line through samples 0 and 1; indices
`1 .. numPoints-2` are the closed-form quadratic through samples
`(i-1, i, i+1)`; index `numPoints-1` is a line with the secant slope of
the last two samples whose constant term is computed (as in the source,
line 763) from `dataPoints[numPoints-2].A`. -/
def curveAt (l : List DataPoint) (i : Nat) : CurvePoint :=
  let numPoints := l.length
  if i = 0 then
    let rate := ((dp l 1).B - (dp l 0).B) / ((dp l 1).A - (dp l 0).A)
    ⟨0, rate, (dp l 0).B - (dp l 0).A * rate⟩
  else if i < numPoints - 1 then
    let x1 := (dp l (i - 1)).A
    let x2 := (dp l i).A
    let x3 := (dp l (i + 1)).A
    let y1 := (dp l (i - 1)).B
    let y2 := (dp l i).B
    let y3 := (dp l (i + 1)).B
    let a := ((y3 - y1) * (x2 - x1) - (y2 - y1) * (x3 - x1)) /
             ((x3 * x3 - x1 * x1) * (x2 - x1) - (x2 * x2 - x1 * x1) * (x3 - x1))
    let b := (y2 - y1 - a * (x2 * x2 - x1 * x1)) / (x2 - x1)
    let c := y1 - (a * x1 * x1 + b * x1)
    ⟨a, b, c⟩
  else
    let rate := ((dp l (numPoints - 1)).B - (dp l (numPoints - 2)).B) /
                ((dp l (numPoints - 1)).A - (dp l (numPoints - 2)).A)
    ⟨0, rate, (dp l (numPoints - 1)).B - (dp l (numPoints - 2)).A * rate⟩

/-- Go `calculateCurve`: one `CurvePoint` per sample. -/
def calculateCurve (l : List DataPoint) : List CurvePoint :=
  (List.range l.length).map (curveAt l)

/-- The polynomial evaluation of Go `calculateByCurve`'s return line:
`curve[m].C + mach*(curve[m].B + curve[m].A*mach)`. -/
def evalSeg (c : CurvePoint) (mach : ℚ) : ℚ := c.C + mach * (c.B + c.A * mach)

/-- The loop body of Go `calculateByCurve`, with the fuel argument
bounding the iteration count (the initial gap `mhi - mlo` strictly
decreases every iteration, so fuel `mhi - mlo` is never exhausted). -/
def bsearchAux (d : List DataPoint) (mach : ℚ) : Nat → Nat → Nat → Nat × Nat
  | 0, mlo, mhi => (mlo, mhi)
  | fuel + 1, mlo, mhi =>
    if 1 < mhi - mlo then
      if (dp d ((mhi + mlo) / 2)).A < mach then bsearchAux d mach fuel ((mhi + mlo) / 2) mhi
      else bsearchAux d mach fuel mlo ((mhi + mlo) / 2)
    else (mlo, mhi)

/-- The `for (mhi - mlo) > 1` loop of Go `calculateByCurve`, returning
the final `(mlo, mhi)` pair. -/
def bsearch (d : List DataPoint) (mach : ℚ) (mlo mhi : Nat) : Nat × Nat :=
  bsearchAux d mach (mhi - mlo) mlo mhi

/-- The indices `mid` at which the loop of Go `calculateByCurve` reads
`data[mid].A` (instrumentation of `bsearchAux`, probe list). -/
def bsearchProbesAux (d : List DataPoint) (mach : ℚ) : Nat → Nat → Nat → List Nat
  | 0, _, _ => []
  | fuel + 1, mlo, mhi =>
    if 1 < mhi - mlo then
      if (dp d ((mhi + mlo) / 2)).A < mach then
        (mhi + mlo) / 2 :: bsearchProbesAux d mach fuel ((mhi + mlo) / 2) mhi
      else (mhi + mlo) / 2 :: bsearchProbesAux d mach fuel mlo ((mhi + mlo) / 2)
    else []

/-- All indices probed by the loop of Go `calculateByCurve`. -/
def bsearchProbes (d : List DataPoint) (mach : ℚ) (mlo mhi : Nat) : List Nat :=
  bsearchProbesAux d mach (mhi - mlo) mlo mhi

/-- The post-loop choice of Go `calculateByCurve`:
`m := mlo` if `data[mhi].A - mach > mach - data[mlo].A`, else `m := mhi`. -/
def chooseIndex (data : List DataPoint) (mach : ℚ) (mlo mhi : Nat) : Nat :=
  if (dp data mhi).A - mach > mach - (dp data mlo).A then mlo else mhi

/-- The segment index `m` computed by Go `calculateByCurve` before its
return line (`numPoints` is the length of `curve`, as in the source). -/
def selectedIndex (data : List DataPoint) (curve : List CurvePoint) (mach : ℚ) : Nat :=
  chooseIndex data mach (bsearch data mach 0 (curve.length - 2)).1
    (bsearch data mach 0 (curve.length - 2)).2

/-- Go `calculateByCurve`. -/
def calculateByCurve (data : List DataPoint) (curve : List CurvePoint) (mach : ℚ) : ℚ :=
  evalSeg (cp curve (selectedIndex data curve mach)) mach

/-- Go package-level `var g1Curve = calculateCurve(g1Table)`. -/
def g1Curve : List CurvePoint := calculateCurve g1Table

/-- Go package-level `var g2Curve = calculateCurve(g2Table)`. -/
def g2Curve : List CurvePoint := calculateCurve g2Table

/-- Go package-level `var g5Curve = calculateCurve(g5Table)`. -/
def g5Curve : List CurvePoint := calculateCurve g5Table

/-- Go package-level `var g6Curve = calculateCurve(g6Table)`. -/
def g6Curve : List CurvePoint := calculateCurve g6Table

/-- Go package-level `var g7Curve = calculateCurve(g7Table)`. -/
def g7Curve : List CurvePoint := calculateCurve g7Table

/-- Go package-level `var g8Curve = calculateCurve(g8Table)`. -/
def g8Curve : List CurvePoint := calculateCurve g8Table

/-- Go package-level `var gICurve = calculateCurve(gITable)`. -/
def gICurve : List CurvePoint := calculateCurve gITable

/-- Go package-level `var gSCurve = calculateCurve(gSTable)`. -/
def gSCurve : List CurvePoint := calculateCurve gSTable

/-- Go `dragFunctionFactory`; `none` models the `panic` of the
`default` branch of the switch. -/
def dragFunctionFactory (dragTable : Nat) : Option (ℚ → ℚ) :=
  if dragTable = DragTableG1 then some (fun mach => calculateByCurve g1Table g1Curve mach)
  else if dragTable = DragTableG2 then some (fun mach => calculateByCurve g2Table g2Curve mach)
  else if dragTable = DragTableG5 then some (fun mach => calculateByCurve g5Table g5Curve mach)
  else if dragTable = DragTableG6 then some (fun mach => calculateByCurve g6Table g6Curve mach)
  else if dragTable = DragTableG7 then some (fun mach => calculateByCurve g7Table g7Curve mach)
  else if dragTable = DragTableG8 then some (fun mach => calculateByCurve g8Table g8Curve mach)
  else if dragTable = DragTableGI then some (fun mach => calculateByCurve gITable gICurve mach)
  else if dragTable = DragTableGS then some (fun mach => calculateByCurve gSTable gSCurve mach)
  else none

/-- Go struct `BallisticCoefficient`. -/
structure BallisticCoefficient where
  value : ℚ
  table : Nat
  drag : ℚ → ℚ

/-- Outcome of Go `CreateBallisticCoefficient`: a normal
`(BallisticCoefficient, nil)` return, a normal `(zero, error)` return,
or a panic escaping the constructor. -/
inductive CreateResult where
  | ok (bc : BallisticCoefficient)
  | err (msg : String)
  | crash (msg : String)

/-- Go `CreateBallisticCoefficient`.  Note the source checks only
`dragTable < DragTableG1`; a `dragTable` above `DragTableGI` reaches
`dragFunctionFactory`, whose `default` branch panics. -/
def CreateBallisticCoefficient (value : ℚ) (dragTable : Nat) : CreateResult :=
  if dragTable < DragTableG1 then
    CreateResult.err "ballisticCoefficient: Unknown drag table"
  else if value ≤ 0 then
    CreateResult.err "ballisticCoefficient: Drag coefficient must be greater than zero"
  else
    match dragFunctionFactory dragTable with
    | some f => CreateResult.ok ⟨value, dragTable, f⟩
    | none => CreateResult.crash "unknown drag table type"

/-- Go method `Value`. -/
def BallisticCoefficient.Value (v : BallisticCoefficient) : ℚ := v.value

/-- Go method `Table`. -/
def BallisticCoefficient.Table (v : BallisticCoefficient) : Nat := v.table

/-- Go method `Drag`: `v.drag(mach) * 2.08551e-04 / v.value`. -/
def BallisticCoefficient.Drag (v : BallisticCoefficient) (mach : ℚ) : ℚ :=
  v.drag mach * 2.08551e-4 / v.value

/-! ### Strict monotonicity of tables -/

instance : IsTrans DataPoint (fun p q => p.A < q.A) := ⟨fun _ _ _ => lt_trans⟩

/-- The table invariant: sample Mach numbers strictly increase. -/
def strictIncr (l : List DataPoint) : Prop := l.Chain' (fun p q => p.A < q.A)

theorem si_get {l : List DataPoint} (h : strictIncr l) {i j : Nat}
    (hij : i < j) (hj : j < l.length) : (dp l i).A < (dp l j).A := by
  have hp := (List.chain'_iff_pairwise).mp h
  rw [List.pairwise_iff_getElem] at hp
  have hi : i < l.length := lt_trans hij hj
  rw [dp, dp, List.getD_eq_getElem _ _ hi, List.getD_eq_getElem _ _ hj]
  exact hp i j hi hj hij

theorem si_mono {l : List DataPoint} (h : strictIncr l) {i j : Nat}
    (hij : i ≤ j) (hj : j < l.length) : (dp l i).A ≤ (dp l j).A := by
  rcases Nat.lt_or_ge i j with hlt | hge
  · exact le_of_lt (si_get h hlt hj)
  · have : i = j := le_antisymm hij hge
    rw [this]

theorem si_reflect {l : List DataPoint} (h : strictIncr l) {i j : Nat}
    (hi : i < l.length) (hA : (dp l i).A < (dp l j).A) : i < j := by
  by_contra hc
  exact absurd hA (not_lt.mpr (si_mono h (not_lt.mp hc) hi))

/-! ### Binary-search loop lemmas -/

theorem bsearchAux_bounds (d : List DataPoint) (mach : ℚ) :
    ∀ fuel mlo mhi, mlo ≤ mhi →
      mlo ≤ (bsearchAux d mach fuel mlo mhi).1 ∧
      (bsearchAux d mach fuel mlo mhi).1 ≤ (bsearchAux d mach fuel mlo mhi).2 ∧
      (bsearchAux d mach fuel mlo mhi).2 ≤ mhi ∧
      min mhi (mlo + 1) ≤ (bsearchAux d mach fuel mlo mhi).2 := by
  intro fuel
  induction fuel with
  | zero => intro mlo mhi h; simp only [bsearchAux]; omega
  | succ n ih =>
    intro mlo mhi h
    simp only [bsearchAux]
    split
    next hgt =>
      split
      next hlt =>
        have := ih ((mhi + mlo) / 2) mhi (by omega)
        omega
      next hlt =>
        have := ih mlo ((mhi + mlo) / 2) (by omega)
        omega
    next hgt => simp only; omega

theorem bsearchAux_gap (d : List DataPoint) (mach : ℚ) :
    ∀ fuel mlo mhi, mhi - mlo ≤ fuel + 1 →
      (bsearchAux d mach fuel mlo mhi).2 - (bsearchAux d mach fuel mlo mhi).1 ≤ 1 := by
  intro fuel
  induction fuel with
  | zero => intro mlo mhi h; simp only [bsearchAux]; omega
  | succ n ih =>
    intro mlo mhi h
    simp only [bsearchAux]
    split
    next hgt =>
      split
      · apply ih; omega
      · apply ih; omega
    next hgt => simp only; omega

theorem bsearchAux_keeplo (d : List DataPoint) (mach : ℚ) :
    ∀ fuel mlo mhi, (∀ j ≤ mhi, ¬ (dp d j).A < mach) →
      (bsearchAux d mach fuel mlo mhi).1 = mlo := by
  intro fuel
  induction fuel with
  | zero => intro mlo mhi _; rfl
  | succ n ih =>
    intro mlo mhi h
    simp only [bsearchAux]
    split
    next hgt =>
      rw [if_neg (h ((mhi + mlo) / 2) (by omega))]
      exact ih mlo ((mhi + mlo) / 2) (fun j hj => h j (by omega))
    next hgt => rfl

theorem bsearchAux_keephi (d : List DataPoint) (mach : ℚ) :
    ∀ fuel mlo mhi, (∀ j ≤ mhi, (dp d j).A < mach) →
      (bsearchAux d mach fuel mlo mhi).2 = mhi := by
  intro fuel
  induction fuel with
  | zero => intro mlo mhi _; rfl
  | succ n ih =>
    intro mlo mhi h
    simp only [bsearchAux]
    split
    next hgt =>
      rw [if_pos (h ((mhi + mlo) / 2) (by omega))]
      exact ih ((mhi + mlo) / 2) mhi h
    next hgt => rfl

theorem bsearchAux_inv (d : List DataPoint) (mach : ℚ) :
    ∀ fuel mlo mhi,
      ((bsearchAux d mach fuel mlo mhi).1 = mlo ∨ (dp d (bsearchAux d mach fuel mlo mhi).1).A < mach) ∧
      ((bsearchAux d mach fuel mlo mhi).2 = mhi ∨ mach ≤ (dp d (bsearchAux d mach fuel mlo mhi).2).A) := by
  intro fuel
  induction fuel with
  | zero => intro mlo mhi; exact ⟨Or.inl rfl, Or.inl rfl⟩
  | succ n ih =>
    intro mlo mhi
    simp only [bsearchAux]
    split
    next hgt =>
      split
      next hlt =>
        rcases ih ((mhi + mlo) / 2) mhi with ⟨h1, h2⟩
        refine ⟨?_, h2⟩
        rcases h1 with h1 | h1
        · rw [h1]; exact Or.inr hlt
        · exact Or.inr h1
      next hlt =>
        rcases ih mlo ((mhi + mlo) / 2) with ⟨h1, h2⟩
        refine ⟨h1, ?_⟩
        rcases h2 with h2 | h2
        · rw [h2]; exact Or.inr (not_lt.mp hlt)
        · exact Or.inr h2
    next hgt => exact ⟨Or.inl rfl, Or.inl rfl⟩

/-- The fuel `mhi - mlo` used by `bsearch` is sufficient: any larger
fuel computes the same pair, i.e. the Go loop never needs more than
`mhi - mlo` iterations. -/
theorem bsearchAux_fuel_irrel (d : List DataPoint) (mach : ℚ) :
    ∀ fuel1 fuel2 mlo mhi, mhi - mlo ≤ fuel1 → mhi - mlo ≤ fuel2 →
      bsearchAux d mach fuel1 mlo mhi = bsearchAux d mach fuel2 mlo mhi := by
  intro fuel1
  induction fuel1 with
  | zero =>
    intro fuel2 mlo mhi h1 h2
    cases fuel2 with
    | zero => rfl
    | succ m =>
      simp only [bsearchAux]
      rw [if_neg (by omega)]
  | succ n ih =>
    intro fuel2 mlo mhi h1 h2
    cases fuel2 with
    | zero =>
      simp only [bsearchAux]
      rw [if_neg (by omega)]
    | succ m =>
      simp only [bsearchAux]
      split
      next hgt =>
        split
        · exact ih m ((mhi + mlo) / 2) mhi (by omega) (by omega)
        · exact ih m mlo ((mhi + mlo) / 2) (by omega) (by omega)
      next hgt => rfl

theorem bsearchProbesAux_mem (d : List DataPoint) (mach : ℚ) :
    ∀ fuel mlo mhi p, p ∈ bsearchProbesAux d mach fuel mlo mhi → mlo ≤ p ∧ p ≤ mhi := by
  intro fuel
  induction fuel with
  | zero => intro mlo mhi p hp; simp [bsearchProbesAux] at hp
  | succ n ih =>
    intro mlo mhi p hp
    simp only [bsearchProbesAux] at hp
    rcases Nat.lt_or_ge 1 (mhi - mlo) with hgt | hle
    · rw [if_pos hgt] at hp
      split at hp <;> rcases List.mem_cons.mp hp with h | h
      · omega
      · have := ih ((mhi + mlo) / 2) mhi p h; omega
      · omega
      · have := ih mlo ((mhi + mlo) / 2) p h; omega
    · rw [if_neg (by omega)] at hp
      simp at hp

/-! ### The fitted segments: shape and node interpolation -/

theorem length_calculateCurve (l : List DataPoint) :
    (calculateCurve l).length = l.length := by
  simp [calculateCurve]

theorem cp_calculateCurve (l : List DataPoint) (i : Nat) (h : i < l.length) :
    cp (calculateCurve l) i = curveAt l i := by
  rw [cp, calculateCurve, List.getD_eq_getElem _ _ (by simpa using h)]
  simp [h]

theorem curveAt_zero (l : List DataPoint) :
    curveAt l 0 =
      ⟨0, ((dp l 1).B - (dp l 0).B) / ((dp l 1).A - (dp l 0).A),
        (dp l 0).B - (dp l 0).A * (((dp l 1).B - (dp l 0).B) / ((dp l 1).A - (dp l 0).A))⟩ := by
  simp [curveAt]

theorem curveAt_last (l : List DataPoint) {i : Nat} (h0 : i ≠ 0) (hge : ¬ i < l.length - 1) :
    curveAt l i =
      ⟨0, ((dp l (l.length - 1)).B - (dp l (l.length - 2)).B) /
            ((dp l (l.length - 1)).A - (dp l (l.length - 2)).A),
        (dp l (l.length - 1)).B - (dp l (l.length - 2)).A *
          (((dp l (l.length - 1)).B - (dp l (l.length - 2)).B) /
            ((dp l (l.length - 1)).A - (dp l (l.length - 2)).A))⟩ := by
  rw [curveAt]
  rw [if_neg h0, if_neg hge]

/-- The first segment reproduces sample 0 exactly. -/
theorem eval_seg0_at0 (l : List DataPoint) :
    evalSeg (curveAt l 0) ((dp l 0).A) = (dp l 0).B := by
  rw [curveAt_zero, evalSeg]
  ring

/-- The first segment reproduces sample 1 exactly (secant line). -/
theorem eval_seg0_at1 (l : List DataPoint) (hne : (dp l 0).A ≠ (dp l 1).A) :
    evalSeg (curveAt l 0) ((dp l 1).A) = (dp l 1).B := by
  rw [curveAt_zero, evalSeg]
  have h : (dp l 1).A - (dp l 0).A ≠ 0 := sub_ne_zero.mpr (Ne.symm hne)
  field_simp
  ring

/-- The last segment's value at the Mach of sample `n-2` is the drag
coefficient of sample `n-1` (the source computes its constant term from
`dataPoints[numPoints-2].A`, so the line passes through
`(A (n-2), B (n-1))`, not through sample `n-2`). -/
theorem eval_seglast_at_pred (l : List DataPoint) {i : Nat} (h0 : i ≠ 0)
    (hge : ¬ i < l.length - 1) :
    evalSeg (curveAt l i) ((dp l (l.length - 2)).A) = (dp l (l.length - 1)).B := by
  rw [curveAt_last l h0 hge, evalSeg]
  ring

/-- Interior segments interpolate their three defining samples exactly
(the closed-form three-point quadratic). -/
theorem curveAt_interior_eval (l : List DataPoint) {i : Nat}
    (h0 : i ≠ 0) (hlt : i < l.length - 1)
    (h12 : (dp l (i - 1)).A ≠ (dp l i).A)
    (h13 : (dp l (i - 1)).A ≠ (dp l (i + 1)).A)
    (h23 : (dp l i).A ≠ (dp l (i + 1)).A) :
    evalSeg (curveAt l i) ((dp l (i - 1)).A) = (dp l (i - 1)).B ∧
    evalSeg (curveAt l i) ((dp l i).A) = (dp l i).B ∧
    evalSeg (curveAt l i) ((dp l (i + 1)).A) = (dp l (i + 1)).B := by
  rw [curveAt]
  rw [if_neg h0, if_pos hlt]
  simp only [evalSeg]
  set x1 := (dp l (i - 1)).A with hx1
  set x2 := (dp l i).A with hx2
  set x3 := (dp l (i + 1)).A with hx3
  set y1 := (dp l (i - 1)).B with hy1
  set y2 := (dp l i).B with hy2
  set y3 := (dp l (i + 1)).B with hy3
  have h21 : x2 - x1 ≠ 0 := sub_ne_zero.mpr (Ne.symm h12)
  have h31 : x3 - x1 ≠ 0 := sub_ne_zero.mpr (Ne.symm h13)
  have h32 : x3 - x2 ≠ 0 := sub_ne_zero.mpr (Ne.symm h23)
  have hD : (x3 * x3 - x1 * x1) * (x2 - x1) - (x2 * x2 - x1 * x1) * (x3 - x1) =
      (x2 - x1) * ((x3 - x1) * (x3 - x2)) := by ring
  have hDne : (x3 * x3 - x1 * x1) * (x2 - x1) - (x2 * x2 - x1 * x1) * (x3 - x1) ≠ 0 := by
    rw [hD]
    exact mul_ne_zero h21 (mul_ne_zero h31 h32)
  refine ⟨by ring, ?_, ?_⟩
  · field_simp
    ring
  · field_simp
    ring

/-! ### Characterizing the segment index selected by `calculateByCurve` -/

/-- The selected index is one of the two final search bounds, hence at
most `curve.length - 2`: the last segment is unreachable. -/
theorem selectedIndex_le (data : List DataPoint) (curve : List CurvePoint) (mach : ℚ) :
    selectedIndex data curve mach ≤ curve.length - 2 := by
  have hb := bsearchAux_bounds data mach (curve.length - 2) 0 (curve.length - 2) (by omega)
  rw [selectedIndex, bsearch, Nat.sub_zero, chooseIndex]
  split
  · omega
  · omega

/-- If every sample Mach in the search range is below `mach`, the upper
bound never moves and the selection is `curve.length - 2`. -/
theorem selectedIndex_above (data : List DataPoint) (curve : List CurvePoint) (mach : ℚ)
    (h : ∀ j ≤ curve.length - 2, (dp data j).A < mach) :
    selectedIndex data curve mach = curve.length - 2 := by
  have hb := bsearchAux_bounds data mach (curve.length - 2) 0 (curve.length - 2) (by omega)
  have hk := bsearchAux_keephi data mach (curve.length - 2) 0 (curve.length - 2) h
  rw [selectedIndex, bsearch, Nat.sub_zero, chooseIndex]
  split
  next hgt =>
    exfalso
    have h1 : (dp data (bsearchAux data mach (curve.length - 2) 0 (curve.length - 2)).1).A < mach :=
      h _ (by omega)
    have h2 : (dp data (bsearchAux data mach (curve.length - 2) 0 (curve.length - 2)).2).A < mach :=
      h _ (by omega)
    linarith
  next hgt => exact hk

/-- If `mach` is strictly below every sample Mach in the search range,
the lower bound never moves and the selection is segment 0. -/
theorem selectedIndex_below (data : List DataPoint) (curve : List CurvePoint) (mach : ℚ)
    (h : ∀ j ≤ curve.length - 2, mach < (dp data j).A) :
    selectedIndex data curve mach = 0 := by
  have hb := bsearchAux_bounds data mach (curve.length - 2) 0 (curve.length - 2) (by omega)
  have hk := bsearchAux_keeplo data mach (curve.length - 2) 0 (curve.length - 2)
    (fun j hj => not_lt.mpr (le_of_lt (h j hj)))
  rw [selectedIndex, bsearch, Nat.sub_zero, chooseIndex]
  split
  next hgt => exact hk
  next hgt =>
    exfalso
    rw [hk] at hgt
    have h0 := h 0 (by omega)
    have h2 := h _ (by omega : (bsearchAux data mach (curve.length - 2) 0 (curve.length - 2)).2 ≤ curve.length - 2)
    push_neg at hgt
    linarith

/-- Selection at a node: the Mach of sample `i` selects segment
`min i (curve.length - 2)`. -/
theorem selectedIndex_node (data : List DataPoint) (curve : List CurvePoint)
    (hsi : strictIncr data) (hlen : data.length = curve.length)
    (h2 : 2 ≤ curve.length) {i : Nat} (hi : i < curve.length) :
    selectedIndex data curve ((dp data i).A) = min i (curve.length - 2) := by
  rcases Nat.lt_or_ge i (curve.length - 1) with hmid | hlast
  · -- i ≤ curve.length - 2
    rcases Nat.eq_zero_or_pos i with hz | hpos
    · -- i = 0 : the lower bound never moves
      subst hz
      have hk := bsearchAux_keeplo data ((dp data 0).A) (curve.length - 2) 0 (curve.length - 2)
        (fun j hj => not_lt.mpr (si_mono hsi (Nat.zero_le j) (by omega)))
      have hb := bsearchAux_bounds data ((dp data 0).A) (curve.length - 2) 0 (curve.length - 2)
        (by omega)
      rw [selectedIndex, bsearch, Nat.sub_zero, chooseIndex]
      split
      next hgt => omega
      next hgt =>
        rcases Nat.eq_or_lt_of_le h2 with h2' | h3
        · -- n = 2 : both bounds are 0
          omega
        · -- n ≥ 3 : upper bound is at least 1, strictly above sample 0
          exfalso
          have hr2 : 1 ≤ (bsearchAux data ((dp data 0).A) (curve.length - 2) 0 (curve.length - 2)).2 := by
            omega
          have hAgt : (dp data 0).A <
              (dp data (bsearchAux data ((dp data 0).A) (curve.length - 2) 0 (curve.length - 2)).2).A :=
            si_get hsi hr2 (by omega)
          rw [hk] at hgt
          push_neg at hgt
          linarith
    · -- 1 ≤ i ≤ curve.length - 2 : bounds close in on (i-1, i)
      have hinv := bsearchAux_inv data ((dp data i).A) (curve.length - 2) 0 (curve.length - 2)
      have hb := bsearchAux_bounds data ((dp data i).A) (curve.length - 2) 0 (curve.length - 2)
        (by omega)
      have hg := bsearchAux_gap data ((dp data i).A) (curve.length - 2) 0 (curve.length - 2)
        (by omega)
      have hlo : (bsearchAux data ((dp data i).A) (curve.length - 2) 0 (curve.length - 2)).1 < i := by
        rcases hinv.1 with h | h
        · omega
        · exact si_reflect hsi (by omega) h
      have hhi : i ≤ (bsearchAux data ((dp data i).A) (curve.length - 2) 0 (curve.length - 2)).2 := by
        rcases hinv.2 with h | h
        · omega
        · by_contra hc
          exact absurd (si_get hsi (not_le.mp hc) (by omega)) (not_lt.mpr h)
      have hr2 : (bsearchAux data ((dp data i).A) (curve.length - 2) 0 (curve.length - 2)).2 = i := by
        omega
      have hr1 : (bsearchAux data ((dp data i).A) (curve.length - 2) 0 (curve.length - 2)).1 = i - 1 := by
        omega
      rw [selectedIndex, bsearch, Nat.sub_zero, chooseIndex]
      split
      next hgt =>
        exfalso
        rw [hr1, hr2] at hgt
        have : (dp data (i - 1)).A < (dp data i).A := si_get hsi (by omega) (by omega)
        linarith
      next hgt => omega
  · -- i = curve.length - 1 : every sample in range is strictly below
    have habove : ∀ j ≤ curve.length - 2, (dp data j).A < (dp data i).A := by
      intro j hj
      exact si_get hsi (by omega) (by omega)
    rw [selectedIndex_above data curve _ habove]
    omega

/-! ### Node exactness of the full evaluator -/

/-- Evaluating the fitted curve at any sample's own Mach reproduces that
sample's drag coefficient exactly (in exact-rational arithmetic). -/
theorem node_exact (data : List DataPoint)
    (hsi : strictIncr data) (h2 : 2 ≤ data.length) {i : Nat} (hi : i < data.length) :
    calculateByCurve data (calculateCurve data) ((dp data i).A) = (dp data i).B := by
  have hlen : data.length = (calculateCurve data).length := (length_calculateCurve data).symm
  rw [calculateByCurve,
    selectedIndex_node data (calculateCurve data) hsi hlen (by omega) (by omega)]
  rw [length_calculateCurve]
  rcases Nat.lt_or_ge i (data.length - 1) with hmid | hlast
  · have hmin : min i (data.length - 2) = i := by omega
    rw [hmin, cp_calculateCurve data i (by omega)]
    rcases Nat.eq_zero_or_pos i with hz | hpos
    · subst hz
      exact eval_seg0_at0 data
    · exact (curveAt_interior_eval data (by omega) (by omega)
        (ne_of_lt (si_get hsi (by omega) (by omega)))
        (ne_of_lt (si_get hsi (by omega) (by omega)))
        (ne_of_lt (si_get hsi (by omega) (by omega)))).2.1
  · -- i = data.length - 1 : selected segment is data.length - 2
    have hieq : i = data.length - 1 := by omega
    have hmin : min i (data.length - 2) = data.length - 2 := by omega
    rw [hmin, cp_calculateCurve data (data.length - 2) (by omega)]
    rcases Nat.eq_or_lt_of_le h2 with h2' | h3
    · -- n = 2 : segment 0 is the secant through samples 0 and 1
      have hz : data.length - 2 = 0 := by omega
      have h1 : i = 1 := by omega
      rw [hz, h1]
      exact eval_seg0_at1 data (ne_of_lt (si_get hsi (by omega) (by omega)))
    · -- n ≥ 3 : segment n-2 is the quadratic through samples n-3, n-2, n-1
      have h3' : data.length - 2 + 1 = i := by omega
      have := (curveAt_interior_eval data (i := data.length - 2) (by omega) (by omega)
        (ne_of_lt (si_get hsi (by omega) (by omega)))
        (ne_of_lt (si_get hsi (by omega) (by omega)))
        (ne_of_lt (si_get hsi (by omega) (by omega)))).2.2
      rw [h3'] at this
      exact this

/-! ### The eight reference tables satisfy the table invariant -/

theorem g1_si : strictIncr g1Table := by
  rw [strictIncr, g1Table]
  norm_num [List.chain'_cons, List.chain'_singleton]

theorem g2_si : strictIncr g2Table := by
  rw [strictIncr, g2Table]
  norm_num [List.chain'_cons, List.chain'_singleton]

theorem g5_si : strictIncr g5Table := by
  rw [strictIncr, g5Table]
  norm_num [List.chain'_cons, List.chain'_singleton]

theorem g6_si : strictIncr g6Table := by
  rw [strictIncr, g6Table]
  norm_num [List.chain'_cons, List.chain'_singleton]

theorem g7_si : strictIncr g7Table := by
  rw [strictIncr, g7Table]
  norm_num [List.chain'_cons, List.chain'_singleton]

theorem g8_si : strictIncr g8Table := by
  rw [strictIncr, g8Table]
  norm_num [List.chain'_cons, List.chain'_singleton]

theorem gI_si : strictIncr gITable := by
  rw [strictIncr, gITable]
  norm_num [List.chain'_cons, List.chain'_singleton]

theorem gS_si : strictIncr gSTable := gI_si

/-! ### Small concrete tables used as witnesses and counterexamples -/

/-- A minimal strictly increasing 3-sample table. -/
def tTable : List DataPoint :=
  [DataPoint.mk 0 10, DataPoint.mk 1 20, DataPoint.mk 2 30]

theorem tTable_si : strictIncr tTable := by
  rw [strictIncr, tTable]
  norm_num [List.chain'_cons, List.chain'_singleton]

/-- Another strictly increasing 3-sample table. -/
def t6Table : List DataPoint :=
  [DataPoint.mk 1 5, DataPoint.mk 2 6, DataPoint.mk 4 7]

theorem t6_si : strictIncr t6Table := by
  rw [strictIncr, t6Table]
  norm_num [List.chain'_cons, List.chain'_singleton]

/-- Node exactness, stated with the 1e-9 tolerance of the specification. -/
theorem node_exact_abs (data : List DataPoint) (hsi : strictIncr data)
    (h2 : 2 ≤ data.length) {i : Nat} (hi : i < data.length) :
    |calculateByCurve data (calculateCurve data) ((dp data i).A) - (dp data i).B| ≤ 1e-9 := by
  rw [node_exact data hsi h2 hi, sub_self, abs_zero]
  norm_num

/-- Replacing the (never selected) final curve segment does not change
any evaluation. -/
theorem cp_set_ne (l : List CurvePoint) (j : Nat) (seg : CurvePoint) {i : Nat}
    (h : j ≠ i) : cp (l.set j seg) i = cp l i := by
  rw [cp, cp, List.getD, List.getD, List.get?_eq_getElem?, List.get?_eq_getElem?,
    List.getElem?_set_ne h]

/-! ### Claim theorems -/

/-- C1 (code evaluation at the failing input): `CreateBallisticCoefficient`
only rejects `dragTable < DragTableG1`.  For value 1 (> 0) and dragTable 9
(outside the 8 identifiers, above `DragTableGI = 8`) the constructor does
not return a normal error: it reaches the `default` branch of
`dragFunctionFactory`, which panics.  The two error paths that do exist
(dragTable 0, non-positive value) are evaluated as well. -/
theorem c1_create_crash_eval :
    (0 : ℚ) < 1 ∧ DragTableGI < 9 ∧
    CreateBallisticCoefficient 1 9 = CreateResult.crash "unknown drag table type" ∧
    CreateBallisticCoefficient 1 0 =
      CreateResult.err "ballisticCoefficient: Unknown drag table" ∧
    CreateBallisticCoefficient (-1) DragTableG1 =
      CreateResult.err "ballisticCoefficient: Drag coefficient must be greater than zero" := by
  refine ⟨by norm_num, by norm_num [DragTableGI], ?_, ?_, ?_⟩
  · norm_num [CreateBallisticCoefficient, dragFunctionFactory, DragTableG1, DragTableG2,
      DragTableG5, DragTableG6, DragTableG7, DragTableG8, DragTableGI, DragTableGS]
  · norm_num [CreateBallisticCoefficient, DragTableG1]
  · norm_num [CreateBallisticCoefficient, DragTableG1]

/-- C2 (confirmed): for each of the 8 supported drag families, fitting the
family's table with `calculateCurve` and evaluating with `calculateByCurve`
at each sample's own Mach number reproduces that sample's drag coefficient
to within 1e-9 (in the exact-rational model the reproduction is exact, at
every node including the first and last). -/
theorem c2_node_exact_families :
    (∀ i, i < g1Table.length →
      |calculateByCurve g1Table g1Curve ((dp g1Table i).A) - (dp g1Table i).B| ≤ 1e-9) ∧
    (∀ i, i < g2Table.length →
      |calculateByCurve g2Table g2Curve ((dp g2Table i).A) - (dp g2Table i).B| ≤ 1e-9) ∧
    (∀ i, i < g5Table.length →
      |calculateByCurve g5Table g5Curve ((dp g5Table i).A) - (dp g5Table i).B| ≤ 1e-9) ∧
    (∀ i, i < g6Table.length →
      |calculateByCurve g6Table g6Curve ((dp g6Table i).A) - (dp g6Table i).B| ≤ 1e-9) ∧
    (∀ i, i < g7Table.length →
      |calculateByCurve g7Table g7Curve ((dp g7Table i).A) - (dp g7Table i).B| ≤ 1e-9) ∧
    (∀ i, i < g8Table.length →
      |calculateByCurve g8Table g8Curve ((dp g8Table i).A) - (dp g8Table i).B| ≤ 1e-9) ∧
    (∀ i, i < gITable.length →
      |calculateByCurve gITable gICurve ((dp gITable i).A) - (dp gITable i).B| ≤ 1e-9) ∧
    (∀ i, i < gSTable.length →
      |calculateByCurve gSTable gSCurve ((dp gSTable i).A) - (dp gSTable i).B| ≤ 1e-9) :=
  ⟨fun _ hi => node_exact_abs g1Table g1_si (by decide) hi,
   fun _ hi => node_exact_abs g2Table g2_si (by decide) hi,
   fun _ hi => node_exact_abs g5Table g5_si (by decide) hi,
   fun _ hi => node_exact_abs g6Table g6_si (by decide) hi,
   fun _ hi => node_exact_abs g7Table g7_si (by decide) hi,
   fun _ hi => node_exact_abs g8Table g8_si (by decide) hi,
   fun _ hi => node_exact_abs gITable gI_si (by decide) hi,
   fun _ hi => node_exact_abs gSTable gS_si (by decide) hi⟩

/-- C2 witness: node exactness instantiated at sample 0 of the G1 table. -/
theorem c2_witness :
    0 < g1Table.length ∧
    |calculateByCurve g1Table g1Curve ((dp g1Table 0).A) - (dp g1Table 0).B| ≤ 1e-9 :=
  ⟨by decide, c2_node_exact_families.1 0 (by decide)⟩

/-- C3 (code evaluation at the failing input): the fitted g1 curve is NOT
continuous at the boundary between the second-to-last segment (index 77)
and the last segment (index 78): at their shared sample's Mach 4.80 the
segments give 0.4990 and 0.4988, a gap of 2e-4, far beyond floating-point
tolerance.  (Source line 763 computes the last segment's constant from
`dataPoints[numPoints-2].A`; the secant through the last two samples, as
at the other boundary, would use `dataPoints[numPoints-1].A`.) -/
theorem c3_last_boundary_gap_eval :
    g1Table.length = 79 ∧
    (dp g1Table 77).A = 4.80 ∧ (dp g1Table 77).B = 0.4990 ∧
    evalSeg (cp g1Curve 77) 4.80 = 0.4990 ∧
    evalSeg (cp g1Curve 78) 4.80 = 0.4988 ∧
    ¬ |evalSeg (cp g1Curve 77) 4.80 - evalSeg (cp g1Curve 78) 4.80| ≤ 1e-9 := by
  have hcur : g1Curve = calculateCurve g1Table := rfl
  have hlen : g1Table.length = 79 := rfl
  have h76 : dp g1Table 76 = DataPoint.mk 4.60 0.4992 := rfl
  have h77 : dp g1Table 77 = DataPoint.mk 4.80 0.4990 := rfl
  have h78 : dp g1Table 78 = DataPoint.mk 5.00 0.4988 := rfl
  have e77 : evalSeg (cp g1Curve 77) 4.80 = 0.4990 := by
    rw [hcur, cp_calculateCurve g1Table 77 (by rw [hlen]; omega)]
    simp only [curveAt, hlen, evalSeg]
    norm_num [h76, h77, h78]
  have e78 : evalSeg (cp g1Curve 78) 4.80 = 0.4988 := by
    rw [hcur, cp_calculateCurve g1Table 78 (by rw [hlen]; omega)]
    simp only [curveAt, hlen, evalSeg]
    norm_num [h77, h78]
  refine ⟨hlen, by rw [h77], by rw [h77], e77, e78, ?_⟩
  have habs : |(0.4990 : ℚ) - 0.4988| = 1 / 5000 := by
    rw [show (0.4990 : ℚ) - 0.4988 = 1 / 5000 from by norm_num, abs_of_pos (by norm_num)]
  rw [e77, e78, habs]
  norm_num

/-- C4 (confirmed): for a `BallisticCoefficient` built from value `v > 0`
and a family whose factory evaluator is `f`, `Drag mach` equals
`f mach * 2.08551e-4 / v`, and the constant is exactly 208551/10^9. -/
theorem c4_drag_formula (v : ℚ) (t : Nat) (f : ℚ → ℚ) (bc : BallisticCoefficient)
    (hf : dragFunctionFactory t = some f)
    (hok : CreateBallisticCoefficient v t = CreateResult.ok bc) (mach : ℚ) :
    bc.Drag mach = f mach * (2.08551e-4 : ℚ) / v ∧
    (2.08551e-4 : ℚ) = 208551 / 1000000000 := by
  constructor
  · rw [CreateBallisticCoefficient] at hok
    split at hok
    next => cases hok
    next =>
      split at hok
      next => cases hok
      next =>
        rw [hf] at hok
        cases hok
        rfl
  · norm_num

/-- C4 witness: the formula at the G1 family with value 1 at Mach 2. -/
theorem c4_witness :
    dragFunctionFactory DragTableG1 =
      some (fun mach => calculateByCurve g1Table g1Curve mach) ∧
    CreateBallisticCoefficient 1 DragTableG1 = CreateResult.ok
      ⟨1, DragTableG1, fun mach => calculateByCurve g1Table g1Curve mach⟩ ∧
    BallisticCoefficient.Drag
        ⟨1, DragTableG1, fun mach => calculateByCurve g1Table g1Curve mach⟩ 2 =
      (fun mach => calculateByCurve g1Table g1Curve mach) 2 * (2.08551e-4 : ℚ) / 1 := by
  have hf : dragFunctionFactory DragTableG1 =
      some (fun mach => calculateByCurve g1Table g1Curve mach) := rfl
  have hok : CreateBallisticCoefficient 1 DragTableG1 = CreateResult.ok
      ⟨1, DragTableG1, fun mach => calculateByCurve g1Table g1Curve mach⟩ := by
    norm_num [CreateBallisticCoefficient, dragFunctionFactory, DragTableG1]
  exact ⟨hf, hok, (c4_drag_formula 1 DragTableG1 _ _ hf hok 2).1⟩

/-- C5 counterexample: for the strictly increasing 3-sample table
`tTable`, the input Mach 2 is strictly nearer the last sample's Mach
(2, distance 0) than the second-to-last sample's (1, distance 1), yet
the selected segment is index 1 = n-2, not the last index n-1 = 2 the
claim asserts. -/
theorem c5_counterexample :
    strictIncr tTable ∧ tTable.length = 3 ∧ (calculateCurve tTable).length = 3 ∧
    |(2 : ℚ) - (dp tTable 2).A| < |(2 : ℚ) - (dp tTable 1).A| ∧
    selectedIndex tTable (calculateCurve tTable) 2 = 1 ∧ (1 : Nat) ≠ 3 - 1 := by
  have hd0 : dp tTable 0 = DataPoint.mk 0 10 := rfl
  have hd1 : dp tTable 1 = DataPoint.mk 1 20 := rfl
  have hd2 : dp tTable 2 = DataPoint.mk 2 30 := rfl
  have hbs : bsearch tTable 2 0 ((calculateCurve tTable).length - 2) = (0, 1) := rfl
  refine ⟨tTable_si, rfl, rfl, by rw [hd1, hd2]; norm_num, ?_, by omega⟩
  rw [selectedIndex, hbs]
  show chooseIndex tTable 2 0 1 = 1
  rw [chooseIndex, hd0, hd1, if_neg (by norm_num)]

/-- C5 (amended, proved): the binary search narrows `[lo,hi]` starting
from `hi = numPoints - 2`, picks the numerically nearer of `lo`/`hi`
(ties to `hi`), and evaluates `constant + mach*(linear + quadratic*mach)`
of the selected segment; for an input strictly nearer the last sample's
Mach than the second-to-last's, the selected segment is the
second-to-last one (index n-2) — index n-1 is unreachable. -/
theorem c5_amended_thm (data : List DataPoint) (curve : List CurvePoint) (n : Nat)
    (hsi : strictIncr data) (hd : data.length = n) (hc : curve.length = n) (h2 : 2 ≤ n)
    (mach : ℚ) (hnear : |mach - (dp data (n - 1)).A| < |mach - (dp data (n - 2)).A|) :
    selectedIndex data curve mach = n - 2 ∧
    calculateByCurve data curve mach =
      (cp curve (n - 2)).C + mach * ((cp curve (n - 2)).B + (cp curve (n - 2)).A * mach) := by
  have hmono : (dp data (n - 2)).A < (dp data (n - 1)).A :=
    si_get hsi (by omega) (by omega)
  have hgt : (dp data (n - 2)).A < mach := by
    rcases le_or_lt mach ((dp data (n - 2)).A) with h | h
    · exfalso
      rw [abs_of_nonpos (by linarith), abs_of_nonpos (by linarith)] at hnear
      linarith
    · exact h
  have hall : ∀ j ≤ curve.length - 2, (dp data j).A < mach := by
    intro j hj
    have : (dp data j).A ≤ (dp data (n - 2)).A := si_mono hsi (by omega) (by omega)
    linarith
  have hsel := selectedIndex_above data curve mach hall
  rw [hc] at hsel
  refine ⟨hsel, ?_⟩
  rw [calculateByCurve, hsel, evalSeg]

/-- C5 witness: the amended selection at `tTable` with Mach 1.9, which is
nearer the last sample (Mach 2) than the second-to-last (Mach 1). -/
theorem c5_witness :
    strictIncr tTable ∧
    |(1.9 : ℚ) - (dp tTable (3 - 1)).A| < |(1.9 : ℚ) - (dp tTable (3 - 2)).A| ∧
    selectedIndex tTable (calculateCurve tTable) 1.9 = 3 - 2 := by
  have hd1 : dp tTable (3 - 2) = DataPoint.mk 1 20 := rfl
  have hd2 : dp tTable (3 - 1) = DataPoint.mk 2 30 := rfl
  have h1 : |(1.9 : ℚ) - (dp tTable (3 - 1)).A| < |(1.9 : ℚ) - (dp tTable (3 - 2)).A| := by
    rw [hd1, hd2, dp_A_mk, dp_A_mk,
      show (1.9 : ℚ) - 2 = -(1 / 10) from by norm_num,
      show (1.9 : ℚ) - 1 = 9 / 10 from by norm_num, abs_neg,
      abs_of_pos (by norm_num : (0 : ℚ) < 1 / 10),
      abs_of_pos (by norm_num : (0 : ℚ) < 9 / 10)]
    norm_num
  exact ⟨tTable_si, h1,
    (c5_amended_thm tTable (calculateCurve tTable) 3 tTable_si rfl rfl (by omega) 1.9 h1).1⟩

/-- C6 counterexample: for the strictly increasing 3-sample table
`t6Table`, the input Mach 10 lies above the whole table range, and the
selected segment is index 1 = n-2, not the last index n-1 = 2 the claim
asserts. -/
theorem c6_counterexample :
    strictIncr t6Table ∧ t6Table.length = 3 ∧
    (dp t6Table 2).A < 10 ∧
    selectedIndex t6Table (calculateCurve t6Table) 10 = 1 ∧ (1 : Nat) ≠ 3 - 1 := by
  have hd0 : dp t6Table 0 = DataPoint.mk 1 5 := rfl
  have hd1 : dp t6Table 1 = DataPoint.mk 2 6 := rfl
  have hd2 : dp t6Table 2 = DataPoint.mk 4 7 := rfl
  have hbs : bsearch t6Table 10 0 ((calculateCurve t6Table).length - 2) = (0, 1) := rfl
  refine ⟨t6_si, rfl, by rw [hd2]; norm_num, ?_, by omega⟩
  rw [selectedIndex, hbs]
  show chooseIndex t6Table 10 0 1 = 1
  rw [chooseIndex, hd0, hd1, if_neg (by norm_num)]

/-- C6 (amended, proved): out-of-range Mach inputs never fail: evaluation
is total and the search saturates to the nearest reachable boundary
segment — index 0 below the table range, and index n-2 (not n-1, which
is unreachable) above it — returning that edge segment's extrapolation. -/
theorem c6_amended_thm (data : List DataPoint) (curve : List CurvePoint) (n : Nat)
    (hsi : strictIncr data) (hd : data.length = n) (hc : curve.length = n) (h2 : 2 ≤ n)
    (mach : ℚ) :
    (mach < (dp data 0).A →
      selectedIndex data curve mach = 0 ∧
      calculateByCurve data curve mach = evalSeg (cp curve 0) mach) ∧
    ((dp data (n - 1)).A < mach →
      selectedIndex data curve mach = n - 2 ∧
      calculateByCurve data curve mach = evalSeg (cp curve (n - 2)) mach) := by
  constructor
  · intro hbelow
    have hall : ∀ j ≤ curve.length - 2, mach < (dp data j).A := by
      intro j hj
      have : (dp data 0).A ≤ (dp data j).A := si_mono hsi (by omega) (by omega)
      linarith
    have hsel := selectedIndex_below data curve mach hall
    exact ⟨hsel, by rw [calculateByCurve, hsel]⟩
  · intro habove
    have hall : ∀ j ≤ curve.length - 2, (dp data j).A < mach := by
      intro j hj
      have : (dp data j).A ≤ (dp data (n - 1)).A := si_mono hsi (by omega) (by omega)
      linarith
    have hsel := selectedIndex_above data curve mach hall
    rw [hc] at hsel
    exact ⟨hsel, by rw [calculateByCurve, hsel]⟩

/-- C6 witness: a below-range input (Mach 0 under `t6Table`, whose range
starts at Mach 1) selects segment 0. -/
theorem c6_witness :
    strictIncr t6Table ∧ (0 : ℚ) < (dp t6Table 0).A ∧
    selectedIndex t6Table (calculateCurve t6Table) 0 = 0 := by
  have hd0 : dp t6Table 0 = DataPoint.mk 1 5 := rfl
  have hlt : (0 : ℚ) < (dp t6Table 0).A := by rw [hd0]; norm_num
  exact ⟨t6_si, hlt,
    ((c6_amended_thm t6Table (calculateCurve t6Table) 3 t6_si rfl rfl (by omega) 0).1 hlt).1⟩

/-- C7 (confirmed): `calculateCurve` on a strictly increasing table of
`n ≥ 2` samples returns exactly `n` segments; each interior segment `i`
satisfies the three interpolation equations through samples
`(i-1, i, i+1)`; the two boundary segments are linear (zero quadratic
coefficient) with slope the secant slope of the two nearest samples. -/
theorem c7_curve_shape (data : List DataPoint) (n : Nat)
    (hsi : strictIncr data) (hn : data.length = n) (h2 : 2 ≤ n) :
    (calculateCurve data).length = n ∧
    (∀ i, 1 ≤ i → i ≤ n - 2 →
      evalSeg (cp (calculateCurve data) i) ((dp data (i - 1)).A) = (dp data (i - 1)).B ∧
      evalSeg (cp (calculateCurve data) i) ((dp data i).A) = (dp data i).B ∧
      evalSeg (cp (calculateCurve data) i) ((dp data (i + 1)).A) = (dp data (i + 1)).B) ∧
    (cp (calculateCurve data) 0).A = 0 ∧
    (cp (calculateCurve data) 0).B =
      ((dp data 1).B - (dp data 0).B) / ((dp data 1).A - (dp data 0).A) ∧
    (cp (calculateCurve data) (n - 1)).A = 0 ∧
    (cp (calculateCurve data) (n - 1)).B =
      ((dp data (n - 1)).B - (dp data (n - 2)).B) /
        ((dp data (n - 1)).A - (dp data (n - 2)).A) := by
  subst hn
  refine ⟨length_calculateCurve data, ?_, ?_, ?_, ?_, ?_⟩
  · intro i h1i h2i
    rw [cp_calculateCurve data i (by omega)]
    exact curveAt_interior_eval data (by omega) (by omega)
      (ne_of_lt (si_get hsi (by omega) (by omega)))
      (ne_of_lt (si_get hsi (by omega) (by omega)))
      (ne_of_lt (si_get hsi (by omega) (by omega)))
  · rw [cp_calculateCurve data 0 (by omega), curveAt_zero]
  · rw [cp_calculateCurve data 0 (by omega), curveAt_zero]
  · rw [cp_calculateCurve data (data.length - 1) (by omega),
      curveAt_last data (by omega) (by omega)]
  · rw [cp_calculateCurve data (data.length - 1) (by omega),
      curveAt_last data (by omega) (by omega)]

/-- C7 witness: the shape facts at the concrete table `tTable`. -/
theorem c7_witness :
    strictIncr tTable ∧ tTable.length = 3 ∧
    (calculateCurve tTable).length = 3 ∧ (cp (calculateCurve tTable) 0).A = 0 :=
  ⟨tTable_si, rfl, (c7_curve_shape tTable 3 tTable_si rfl (by omega)).1,
   (c7_curve_shape tTable 3 tTable_si rfl (by omega)).2.2.1⟩

/-- C8 (confirmed): every one of the 8 reference drag tables has strictly
increasing Mach values: for every index `i` with `i+1 < len`, sample `i`'s
Mach is strictly below sample `i+1`'s. -/
theorem c8_tables_strictly_increasing :
    (∀ i, i + 1 < g1Table.length → (dp g1Table i).A < (dp g1Table (i + 1)).A) ∧
    (∀ i, i + 1 < g2Table.length → (dp g2Table i).A < (dp g2Table (i + 1)).A) ∧
    (∀ i, i + 1 < g5Table.length → (dp g5Table i).A < (dp g5Table (i + 1)).A) ∧
    (∀ i, i + 1 < g6Table.length → (dp g6Table i).A < (dp g6Table (i + 1)).A) ∧
    (∀ i, i + 1 < g7Table.length → (dp g7Table i).A < (dp g7Table (i + 1)).A) ∧
    (∀ i, i + 1 < g8Table.length → (dp g8Table i).A < (dp g8Table (i + 1)).A) ∧
    (∀ i, i + 1 < gITable.length → (dp gITable i).A < (dp gITable (i + 1)).A) ∧
    (∀ i, i + 1 < gSTable.length → (dp gSTable i).A < (dp gSTable (i + 1)).A) :=
  ⟨fun _ h => si_get g1_si (Nat.lt_succ_self _) h,
   fun _ h => si_get g2_si (Nat.lt_succ_self _) h,
   fun _ h => si_get g5_si (Nat.lt_succ_self _) h,
   fun _ h => si_get g6_si (Nat.lt_succ_self _) h,
   fun _ h => si_get g7_si (Nat.lt_succ_self _) h,
   fun _ h => si_get g8_si (Nat.lt_succ_self _) h,
   fun _ h => si_get gI_si (Nat.lt_succ_self _) h,
   fun _ h => si_get gS_si (Nat.lt_succ_self _) h⟩

/-- C8 witness: strict increase instantiated at the first two samples of
the G1 table. -/
theorem c8_witness :
    0 + 1 < g1Table.length ∧ (dp g1Table 0).A < (dp g1Table (0 + 1)).A :=
  ⟨by decide, c8_tables_strictly_increasing.1 0 (by decide)⟩

/-- C9 counterexample: the GS table does not differ from the GI table in
any sample — the source defines `gSTable = gITable` (its comment:
"tables are the same") — and the two drag evaluations agree, e.g. at
Mach 3, so no Mach number distinguishes GS from GI. -/
theorem c9_counterexample :
    gSTable = gITable ∧
    calculateByCurve gSTable gSCurve 3 = calculateByCurve gITable gICurve 3 :=
  ⟨rfl, rfl⟩

/-- C9 (amended, proved): seven families have their own tables, but GS is
an alias of GI: the tables and fitted curves are equal, and the factory's
GS and GI drag functions agree at every Mach. -/
theorem c9_amended_thm :
    gSTable = gITable ∧ gSCurve = gICurve ∧
    ∀ f g : ℚ → ℚ, dragFunctionFactory DragTableGS = some f →
      dragFunctionFactory DragTableGI = some g → ∀ mach, f mach = g mach := by
  refine ⟨rfl, rfl, ?_⟩
  intro f g hf hg mach
  have hfv : dragFunctionFactory DragTableGS =
      some (fun mach => calculateByCurve gSTable gSCurve mach) := rfl
  have hgv : dragFunctionFactory DragTableGI =
      some (fun mach => calculateByCurve gITable gICurve mach) := rfl
  rw [hfv] at hf
  rw [hgv] at hg
  injection hf with hf'
  injection hg with hg'
  rw [← hf', ← hg']
  exact rfl

/-- C9 witness: the factory's GS and GI evaluators agree at Mach 3. -/
theorem c9_witness :
    dragFunctionFactory DragTableGS =
      some (fun mach => calculateByCurve gSTable gSCurve mach) ∧
    dragFunctionFactory DragTableGI =
      some (fun mach => calculateByCurve gITable gICurve mach) ∧
    (fun mach => calculateByCurve gSTable gSCurve mach) 3 =
      (fun mach => calculateByCurve gITable gICurve mach) 3 :=
  ⟨rfl, rfl, c9_amended_thm.2.2 _ _ rfl rfl 3⟩

/-- C10 (confirmed): for tables/curves of equal length `n ≥ 2` and every
Mach, the selected segment index lies in `[0, n-2]` (in particular the
final segment, index n-1, is never selected), every index the search
probes is within bounds, and replacing the final segment by anything
leaves every evaluation unchanged: its value never influences a drag
evaluation. -/
theorem c10_last_segment_never_selected (data : List DataPoint) (curve : List CurvePoint)
    (n : Nat) (hd : data.length = n) (hc : curve.length = n) (h2 : 2 ≤ n) (mach : ℚ) :
    selectedIndex data curve mach ≤ n - 2 ∧
    selectedIndex data curve mach ≠ n - 1 ∧
    selectedIndex data curve mach < data.length ∧
    selectedIndex data curve mach < curve.length ∧
    (∀ p ∈ bsearchProbes data mach 0 (curve.length - 2), p ≤ n - 2 ∧ p < data.length) ∧
    ∀ seg : CurvePoint,
      calculateByCurve data (curve.set (n - 1) seg) mach = calculateByCurve data curve mach := by
  have hle := selectedIndex_le data curve mach
  refine ⟨by omega, by omega, by omega, by omega, ?_, ?_⟩
  · intro p hp
    rw [bsearchProbes, Nat.sub_zero] at hp
    have := bsearchProbesAux_mem data mach (curve.length - 2) 0 (curve.length - 2) p hp
    omega
  · intro seg
    have hsel : selectedIndex data (curve.set (n - 1) seg) mach =
        selectedIndex data curve mach := by
      rw [selectedIndex, selectedIndex, List.length_set]
    rw [calculateByCurve, calculateByCurve, hsel,
      cp_set_ne curve (n - 1) seg (by omega)]

/-- C10 witness: at the concrete table `tTable` with the out-of-range
Mach 99 the selected index is at most 1 = n-2. -/
theorem c10_witness :
    tTable.length = 3 ∧ (calculateCurve tTable).length = 3 ∧
    selectedIndex tTable (calculateCurve tTable) 99 ≤ 3 - 2 :=
  ⟨rfl, rfl,
   (c10_last_segment_never_selected tTable (calculateCurve tTable) 3 rfl rfl (by omega) 99).1⟩

end Ballistics
